import Mathlib

/-!
Verification of the circuit-breaker implementation in `Circuit_breaker.py`.

The Python class `CircuitBreaker` is embedded shallowly:
  - the `State` enum becomes an inductive type;
  - the mutable instance attributes become the record `CBState`;
  - the constructor arguments become the record `Config` (the constructor
    itself is `circuit_breaker_make`, returning `none` exactly where Python
    raises at construction, i.e. `deque(maxlen=w)` with `w < 0`);
  - `time.time()` values are modelled as rationals, passed in as `now`;
  - each method becomes a pure function on `CBState`; methods that print
    return the list of printed lines alongside the new state;
  - `CircuitBreaker.call`, which either raises `CallNotPermittedException`,
    returns the wrapped function's result, or re-raises the wrapped
    function's exception, returns a `CallOutcome` tag; the wrapped callable
    is abstracted by the boolean `ok` (`true` = the call returns normally,
    `false` = it raises).  `call` itself returns `Option` because Python
    would raise a `TypeError` when `state == OPEN` while
    `last_failure_time is None` (unreachable from the initial state).
-/

namespace CircuitBreaker

/-- The `State` enum: CLOSED, OPEN, HALF_OPEN. -/
inductive State where
  | CLOSED
  | OPEN
  | HALF_OPEN
  deriving DecidableEq, Repr

/-- The constructor parameters of `CircuitBreaker.__init__` (stored verbatim
on the instance; no validation is performed by the source). -/
structure Config where
  failure_rate_threshold : ℚ
  window_size : ℤ
  half_open_max_calls : ℤ
  open_state_wait : ℚ
  deriving DecidableEq, Repr

/-- The mutable attributes of a `CircuitBreaker` instance. -/
structure CBState where
  state : State
  last_failure_time : Option ℚ
  recent_calls : List Bool
  half_open_calls : ℤ
  half_open_success : ℤ
  deriving DecidableEq, Repr

/-- `deque(maxlen=m).append(b)` on a deque currently holding `w`:
the new element goes to the tail and the oldest entries are discarded
until at most `m` elements remain. -/
def dequeAppend (m : ℤ) (w : List Bool) (b : Bool) : List Bool :=
  let w' := w ++ [b]
  w'.drop (w'.length - m.toNat)

/-- `CircuitBreaker.__init__`: stores the configuration and the initial
state `CLOSED` with an empty window and zeroed counters.  Returns `none`
exactly when Python raises: `deque(maxlen=w)` raises `ValueError` for a
negative `w`.  No other validation happens in the source. -/
def circuit_breaker_make (failure_rate_threshold : ℚ) (window_size : ℤ)
    (half_open_max_calls : ℤ) (open_state_wait : ℚ) :
    Option (Config × CBState) :=
  if window_size < 0 then none
  else some
    ({ failure_rate_threshold := failure_rate_threshold
       window_size := window_size
       half_open_max_calls := half_open_max_calls
       open_state_wait := open_state_wait },
     { state := State.CLOSED
       last_failure_time := none
       recent_calls := []
       half_open_calls := 0
       half_open_success := 0 })

/-- The initial instance state produced by the constructor. -/
def initState : CBState :=
  { state := State.CLOSED
    last_failure_time := none
    recent_calls := []
    half_open_calls := 0
    half_open_success := 0 }

/-- `CircuitBreaker._current_failure_rate`: `0.0` on an empty window,
otherwise `(count of False entries / window length) * 100`. -/
def current_failure_rate (w : List Bool) : ℚ :=
  if w = [] then 0
  else ((w.count false : ℚ) / (w.length : ℚ)) * 100

/-- `CircuitBreaker._transition_to_open`: set state to OPEN, record the
trip time, print `[TRANSITION] → OPEN`. -/
def transition_to_open (now : ℚ) (s : CBState) : CBState × List String :=
  ({ s with state := State.OPEN, last_failure_time := some now },
   ["[TRANSITION] → OPEN"])

/-- `CircuitBreaker._transition_to_half_open`: set state to HALF_OPEN,
reset both half-open counters to 0, print `[TRANSITION] → HALF_OPEN`. -/
def transition_to_half_open (s : CBState) : CBState × List String :=
  ({ s with state := State.HALF_OPEN, half_open_calls := 0,
            half_open_success := 0 },
   ["[TRANSITION] → HALF_OPEN"])

/-- `CircuitBreaker._transition_to_closed`: set state to CLOSED, clear the
sliding window, print `[TRANSITION] → CLOSED`. -/
def transition_to_closed (s : CBState) : CBState × List String :=
  ({ s with state := State.CLOSED, recent_calls := [] },
   ["[TRANSITION] → CLOSED"])

/-- `CircuitBreaker._on_success`. -/
def on_success (now : ℚ) (cfg : Config) (s : CBState) : CBState × List String :=
  if s.state = State.HALF_OPEN then
    let s1 := { s with half_open_calls := s.half_open_calls + 1,
                       half_open_success := s.half_open_success + 1 }
    if s1.half_open_calls ≥ cfg.half_open_max_calls ∧
        s1.half_open_success = s1.half_open_calls then
      transition_to_closed s1
    else (s1, [])
  else
    let s1 := { s with recent_calls :=
                  dequeAppend cfg.window_size s.recent_calls true }
    if current_failure_rate s1.recent_calls > cfg.failure_rate_threshold then
      transition_to_open now s1
    else (s1, [])

/-- `CircuitBreaker._on_failure`. -/
def on_failure (now : ℚ) (cfg : Config) (s : CBState) : CBState × List String :=
  if s.state = State.HALF_OPEN then
    let s1 := { s with half_open_calls := s.half_open_calls + 1 }
    transition_to_open now s1
  else
    let s1 := { s with recent_calls :=
                  dequeAppend cfg.window_size s.recent_calls false }
    if current_failure_rate s1.recent_calls > cfg.failure_rate_threshold then
      transition_to_open now s1
    else (s1, [])

/-- How `CircuitBreaker.call` terminates, seen from the caller. -/
inductive CallOutcome where
  /-- raise `CallNotPermittedException (Circuit is OPEN)`;
  the wrapped function is never invoked. -/
  | rejectedOpen
  /-- raise `CallNotPermittedException (Too many test calls in HALF_OPEN)`;
  the wrapped function is never invoked. -/
  | rejectedHalfOpen
  /-- the wrapped function returned normally and its result is returned. -/
  | returned
  /-- the wrapped function raised and its exception is re-raised. -/
  | raised
  deriving DecidableEq, Repr

/-- The part of `CircuitBreaker.call` after the OPEN gate: the HALF_OPEN
budget check, then invocation of the wrapped function and outcome
recording.  `out` is the output printed so far by the OPEN gate. -/
def callBody (cfg : Config) (now : ℚ) (ok : Bool) (s : CBState)
    (out : List String) : CallOutcome × CBState × List String :=
  if s.state = State.HALF_OPEN ∧ s.half_open_calls ≥ cfg.half_open_max_calls then
    (CallOutcome.rejectedHalfOpen, s, out)
  else if ok then
    let p := on_success now cfg s
    (CallOutcome.returned, p.1, out ++ p.2)
  else
    let p := on_failure now cfg s
    (CallOutcome.raised, p.1, out ++ p.2)

/-- `CircuitBreaker.call`, with the wrapped callable abstracted by `ok`
(whether `func(*args, **kwargs)` returns normally).  `none` models the
Python `TypeError` on `time.time() - None` when the breaker is OPEN with
`last_failure_time` unset (unreachable from `initState`). -/
def call (cfg : Config) (now : ℚ) (ok : Bool) (s : CBState) :
    Option (CallOutcome × CBState × List String) :=
  if s.state = State.OPEN then
    match s.last_failure_time with
    | none => none
    | some t =>
      if now - t ≥ cfg.open_state_wait then
        let p := transition_to_half_open s
        some (callBody cfg now ok p.1 p.2)
      else
        some (CallOutcome.rejectedOpen, s, [])
  else
    some (callBody cfg now ok s [])

/-- One guarded call, as driven by a client: the instant at which it is
made and whether the wrapped operation succeeds. -/
structure Event where
  now : ℚ
  ok : Bool
  deriving DecidableEq, Repr

/-- Run a sequence of guarded calls through the breaker, threading the
instance state (printed output discarded). -/
def run (cfg : Config) (s : CBState) : List Event → Option CBState
  | [] => some s
  | e :: es =>
    match call cfg e.now e.ok s with
    | none => none
    | some (_, s', _) => run cfg s' es

/-! ### Concrete instances used by the witnesses -/

/-- The configuration of the demo at the bottom of the source file:
threshold 50 %, window of 4, 2 half-open trial calls, 3 s open wait. -/
def cfgA : Config :=
  { failure_rate_threshold := 50
    window_size := 4
    half_open_max_calls := 2
    open_state_wait := 3 }

/-- An OPEN instance that tripped at instant 0 with window `[T, F, F]`. -/
def sOpen : CBState :=
  { state := State.OPEN
    last_failure_time := some 0
    recent_calls := [true, false, false]
    half_open_calls := 0
    half_open_success := 0 }

/-- A HALF_OPEN instance after one successful trial call. -/
def sHalf : CBState :=
  { state := State.HALF_OPEN
    last_failure_time := some 0
    recent_calls := [true, false, false]
    half_open_calls := 1
    half_open_success := 1 }

/-- A HALF_OPEN instance whose trial budget (2 under `cfgA`) is spent. -/
def sHalfFull : CBState :=
  { state := State.HALF_OPEN
    last_failure_time := some 0
    recent_calls := [true, false, false]
    half_open_calls := 2
    half_open_success := 2 }

/-- A CLOSED instance with window `[T, F]`. -/
def sClosedTF : CBState :=
  { state := State.CLOSED
    last_failure_time := none
    recent_calls := [true, false]
    half_open_calls := 0
    half_open_success := 0 }

/-- A CLOSED instance with window `[F, F]`. -/
def sClosedFF : CBState :=
  { state := State.CLOSED
    last_failure_time := none
    recent_calls := [false, false]
    half_open_calls := 0
    half_open_success := 0 }

/-! ### C4: a HALF_OPEN trial failure unconditionally re-trips -/

/-- C4: for every trial call that fails while the breaker is HALF_OPEN,
regardless of how many prior trials succeeded, `half_open_calls` is
incremented and the breaker transitions back to OPEN with
`last_failure_time` reset to the current instant (everything else,
including `half_open_success` and the window, is untouched). -/
theorem half_open_failure_trips_open (cfg : Config) (now : ℚ) (s : CBState)
    (hmode : s.state = State.HALF_OPEN) :
    (on_failure now cfg s).1 =
      { s with state := State.OPEN
               last_failure_time := some now
               half_open_calls := s.half_open_calls + 1 } := by
  simp [on_failure, transition_to_open, hmode]

/-- Witness for C4 at `cfgA`, instant 7 and the HALF_OPEN state `sHalf`. -/
theorem half_open_failure_trips_open_witness :
    (on_failure 7 cfgA sHalf).1 =
      { sHalf with state := State.OPEN
                   last_failure_time := some 7
                   half_open_calls := sHalf.half_open_calls + 1 } :=
  half_open_failure_trips_open cfgA 7 sHalf rfl

/-! ### C8: HALF_OPEN with an exhausted trial budget rejects untouched -/

/-- C8: every call made while the breaker is HALF_OPEN with
`half_open_calls ≥ half_open_max_calls` raises
`CallNotPermittedException`, the wrapped operation is not invoked (the
outcome is a rejection, not `returned`/`raised`), the instance state is
returned unchanged and nothing is printed. -/
theorem half_open_budget_exhausted_rejects (cfg : Config) (now : ℚ)
    (ok : Bool) (s : CBState) (hmode : s.state = State.HALF_OPEN)
    (hbudget : s.half_open_calls ≥ cfg.half_open_max_calls) :
    call cfg now ok s = some (CallOutcome.rejectedHalfOpen, s, []) := by
  simp [call, callBody, hmode, hbudget]

/-- Witness for C8: under `cfgA` (budget 2), the spent instance
`sHalfFull` rejects a would-be-successful call unchanged. -/
theorem half_open_budget_exhausted_rejects_witness :
    call cfgA 9 true sHalfFull =
      some (CallOutcome.rejectedHalfOpen, sHalfFull, []) :=
  half_open_budget_exhausted_rejects cfgA 9 true sHalfFull rfl (by decide)

/-! ### C5: the constructor performs no validation -/

/-- C5 fails on the code: constructing with `window_size = 0`
(non-positive), `failure_rate_threshold = 200` (outside 0–100),
`half_open_max_calls = 0` (non-positive) and a negative
`open_state_wait` raises nothing and produces a breaker instance in the
usual initial state. -/
theorem construction_accepts_invalid_config :
    circuit_breaker_make 200 0 0 (-1) =
      some ({ failure_rate_threshold := 200
              window_size := 0
              half_open_max_calls := 0
              open_state_wait := -1 }, initState) := by
  rfl

/-! ### C6: transitions only print a fixed line -/

/-- C6 fails on the code: each transition helper's sole observable side
effect is one fixed console line naming only the new mode.  The output is
the same constant for every previous state and every instant, so it
carries neither the previous mode nor a timestamp, and no structured
`{from, to, timestamp}` event or callback exists anywhere in the class. -/
theorem transitions_print_fixed_lines (s : CBState) (now : ℚ) :
    (transition_to_open now s).2 = ["[TRANSITION] → OPEN"] ∧
    (transition_to_half_open s).2 = ["[TRANSITION] → HALF_OPEN"] ∧
    (transition_to_closed s).2 = ["[TRANSITION] → CLOSED"] :=
  ⟨rfl, rfl, rfl⟩

/-! ### C1: the OPEN gate -/

/-- C1: for every call made while the breaker is OPEN (with the trip
instant recorded as `t`) under a positive trial budget: if
`now - t ≥ open_state_wait`, the breaker first transitions to HALF_OPEN
(resetting both half-open counters to 0, which is what
`(transition_to_half_open s).1` is) and admits the call as a trial — the
wrapped operation runs and its outcome is recorded from that reset
HALF_OPEN state; otherwise the call is rejected with
`CallNotPermittedException (Circuit is OPEN)`, the state is unchanged and
the wrapped operation is never invoked. -/
theorem open_gate (cfg : Config) (now t : ℚ) (ok : Bool) (s : CBState)
    (hmode : s.state = State.OPEN) (ht : s.last_failure_time = some t)
    (hmax : 0 < cfg.half_open_max_calls) :
    (now - t ≥ cfg.open_state_wait →
      call cfg now ok s =
        some (if ok then CallOutcome.returned else CallOutcome.raised,
          (if ok then on_success now cfg (transition_to_half_open s).1
           else on_failure now cfg (transition_to_half_open s).1).1,
          (transition_to_half_open s).2 ++
            (if ok then on_success now cfg (transition_to_half_open s).1
             else on_failure now cfg (transition_to_half_open s).1).2)) ∧
    (¬ now - t ≥ cfg.open_state_wait →
      call cfg now ok s = some (CallOutcome.rejectedOpen, s, [])) := by
  have h0 : ¬ cfg.half_open_max_calls ≤ 0 := not_le.mpr hmax
  constructor
  · intro helapsed
    cases ok <;>
      simp [call, callBody, transition_to_half_open, hmode, ht, helapsed, h0]
  · intro hlt
    simp [call, hmode, ht, hlt]

/-- Witness for C1 (rejection side): under `cfgA` (wait 3), the breaker
`sOpen` that tripped at instant 0 rejects a call at instant 1 unchanged. -/
theorem open_gate_witness :
    call cfgA 1 true sOpen = some (CallOutcome.rejectedOpen, sOpen, []) :=
  (open_gate cfgA 1 0 true sOpen rfl rfl (by decide)).2 (by norm_num [cfgA])

/-! ### C3: HALF_OPEN trial success -/

/-- C3: for every trial call that succeeds while the breaker is
HALF_OPEN, both half-open counters are incremented, and the breaker then
transitions to CLOSED — clearing the Outcome Window entirely — if and
only if the incremented counters satisfy
`half_open_calls ≥ half_open_max_calls` and
`half_open_success = half_open_calls`; otherwise it stays HALF_OPEN with
the window untouched. -/
theorem half_open_success_step (cfg : Config) (now : ℚ) (s : CBState)
    (hmode : s.state = State.HALF_OPEN) :
    (on_success now cfg s).1.half_open_calls = s.half_open_calls + 1 ∧
    (on_success now cfg s).1.half_open_success = s.half_open_success + 1 ∧
    ((on_success now cfg s).1.state = State.CLOSED ↔
      (s.half_open_calls + 1 ≥ cfg.half_open_max_calls ∧
       s.half_open_success + 1 = s.half_open_calls + 1)) ∧
    ((on_success now cfg s).1.state = State.CLOSED →
      (on_success now cfg s).1.recent_calls = []) ∧
    ((on_success now cfg s).1.state ≠ State.CLOSED →
      (on_success now cfg s).1.state = State.HALF_OPEN ∧
      (on_success now cfg s).1.recent_calls = s.recent_calls) := by
  by_cases hc : cfg.half_open_max_calls ≤ s.half_open_calls + 1 ∧
      s.half_open_success = s.half_open_calls
  · simp [on_success, transition_to_closed, hmode, hc]
  · simp [on_success, hmode, hc]

/-- Witness for C3: under `cfgA` (budget 2), a second consecutive trial
success from `sHalf` (counters 1/1) closes the breaker. -/
theorem half_open_success_step_witness :
    (on_success 9 cfgA sHalf).1.state = State.CLOSED :=
  (half_open_success_step cfgA 9 sHalf rfl).2.2.1.mpr (by decide)

/-! ### C2: the failure rate and the strict trip boundary -/

/-- C2: the failure rate is 0 on an empty window and otherwise
`(count of False entries / current window length) * 100` — the
denominator is the window's current length, not `window_size` — and a
call recorded while CLOSED (success or failure alike) leaves the breaker
OPEN exactly when the rate of the updated window is strictly greater
than `failure_rate_threshold`; a rate equal to the threshold keeps it
CLOSED. -/
theorem failure_rate_and_strict_trip (cfg : Config) (now : ℚ) (s : CBState)
    (ok : Bool) (w : List Bool) (hmode : s.state = State.CLOSED)
    (hw : w ≠ []) :
    current_failure_rate [] = 0 ∧
    current_failure_rate w = ((w.count false : ℚ) / (w.length : ℚ)) * 100 ∧
    ((if ok then on_success now cfg s else on_failure now cfg s).1.state =
        State.OPEN ↔
      current_failure_rate (dequeAppend cfg.window_size s.recent_calls ok) >
        cfg.failure_rate_threshold) := by
  refine ⟨rfl, by simp [current_failure_rate, hw], ?_⟩
  by_cases hr : current_failure_rate
      (dequeAppend cfg.window_size s.recent_calls ok) >
      cfg.failure_rate_threshold
  · cases ok <;> simp [on_success, on_failure, transition_to_open, hmode, hr]
  · cases ok <;> simp [on_success, on_failure, hmode, hr]

/-- Witness for C2: under `cfgA` (threshold 50, window 4), recording a
failure on `sClosedTF` (window `[T, F]`) yields window `[T, F, F]` with
rate 200/3 > 50 and trips the breaker to OPEN. -/
theorem failure_rate_and_strict_trip_witness :
    (on_failure 0 cfgA sClosedTF).1.state = State.OPEN :=
  (failure_rate_and_strict_trip cfgA 0 sClosedTF false [true] rfl
      (by decide)).2.2.mpr
    (by
      have h : dequeAppend cfgA.window_size sClosedTF.recent_calls false =
          [true, false, false] := rfl
      rw [h]
      simp only [current_failure_rate, reduceCtorEq, if_false]
      norm_num [cfgA, List.count_cons])

/-! ### C7: a success recorded while CLOSED can still trip -/

/-- C7: for every call admitted while CLOSED whose wrapped operation
succeeds, `call` returns the operation's result (outcome `returned`),
`true` is appended to the Outcome Window (through the deque bound), and
the breaker ends up OPEN exactly when the recomputed rate of the updated
window strictly exceeds the threshold — i.e. it can trip even though the
call itself succeeded. -/
theorem closed_success_step (cfg : Config) (now : ℚ) (s : CBState)
    (hmode : s.state = State.CLOSED) :
    call cfg now true s =
      some (CallOutcome.returned, (on_success now cfg s).1,
        (on_success now cfg s).2) ∧
    (on_success now cfg s).1.recent_calls =
      dequeAppend cfg.window_size s.recent_calls true ∧
    ((on_success now cfg s).1.state = State.OPEN ↔
      current_failure_rate (dequeAppend cfg.window_size s.recent_calls true) >
        cfg.failure_rate_threshold) := by
  by_cases hr : current_failure_rate
      (dequeAppend cfg.window_size s.recent_calls true) >
      cfg.failure_rate_threshold <;>
    simp [call, callBody, on_success, transition_to_open, hmode, hr]

/-- Witness for C7: under `cfgA`, a successful call on `sClosedFF`
(window `[F, F]`) returns normally yet trips the breaker: the new window
`[F, F, T]` has rate 200/3 > 50. -/
theorem closed_success_step_witness :
    (on_success 0 cfgA sClosedFF).1.state = State.OPEN :=
  (closed_success_step cfgA 0 sClosedFF rfl).2.2.mpr
    (by
      have h : dequeAppend cfgA.window_size sClosedFF.recent_calls true =
          [false, false, true] := rfl
      rw [h]
      simp only [current_failure_rate, reduceCtorEq, if_false]
      norm_num [cfgA, List.count_cons])

/-! ### Trace infrastructure: what states `call` can produce -/

/-- The state returned by `callBody` is either the input state (rejection)
or the input state with the outcome recorded. -/
theorem callBody_result_state (cfg : Config) (now : ℚ) (ok : Bool)
    (s : CBState) (out : List String) (r : CallOutcome) (s' : CBState)
    (out' : List String)
    (hc : callBody cfg now ok s out = (r, s', out')) :
    s' = s ∨
    s' = (if ok then on_success now cfg s else on_failure now cfg s).1 := by
  simp only [callBody] at hc
  split_ifs at hc with h1 h2
  · simp only [Prod.mk.injEq] at hc
    exact Or.inl hc.2.1.symm
  · subst h2
    simp only [Prod.mk.injEq] at hc
    exact Or.inr hc.2.1.symm
  · rw [Bool.not_eq_true] at h2
    subst h2
    simp only [Prod.mk.injEq] at hc
    exact Or.inr hc.2.1.symm

/-- The state returned by a completed `call` is the input state, the input
state with the outcome recorded, the half-open reset of the input state,
or that reset with the outcome recorded. -/
theorem call_result_state (cfg : Config) (now : ℚ) (ok : Bool) (s : CBState)
    (r : CallOutcome) (s' : CBState) (out : List String)
    (hc : call cfg now ok s = some (r, s', out)) :
    s' = s ∨
    s' = (if ok then on_success now cfg s else on_failure now cfg s).1 ∨
    s' = (transition_to_half_open s).1 ∨
    s' = (if ok then on_success now cfg (transition_to_half_open s).1
          else on_failure now cfg (transition_to_half_open s).1).1 := by
  unfold call at hc
  split at hc
  · split at hc
    · exact Option.noConfusion hc
    · split at hc
      · rw [Option.some.injEq] at hc
        rcases callBody_result_state cfg now ok (transition_to_half_open s).1
            (transition_to_half_open s).2 r s' out hc with h | h
        · exact Or.inr (Or.inr (Or.inl h))
        · exact Or.inr (Or.inr (Or.inr h))
      · simp only [Option.some.injEq, Prod.mk.injEq] at hc
        exact Or.inl hc.2.1.symm
  · rw [Option.some.injEq] at hc
    rcases callBody_result_state cfg now ok s [] r s' out hc with h | h
    · exact Or.inl h
    · exact Or.inr (Or.inl h)

/-- Any property of the instance state preserved by every completed
`call` holds after every completed run. -/
theorem run_preserves (cfg : Config) (P : CBState → Prop)
    (hcall : ∀ now ok s r s' out, P s →
      call cfg now ok s = some (r, s', out) → P s') :
    ∀ (evs : List Event) (s s' : CBState),
      P s → run cfg s evs = some s' → P s' := by
  intro evs
  induction evs with
  | nil =>
    intro s s' h hr
    simp only [run, Option.some.injEq] at hr
    exact hr ▸ h
  | cons e es ih =>
    intro s s' h hr
    simp only [run] at hr
    cases hcl : call cfg e.now e.ok s with
    | none =>
      simp only [hcl] at hr
      exact Option.noConfusion hr
    | some trip =>
      obtain ⟨r, s1, out⟩ := trip
      simp only [hcl] at hr
      exact ih s1 s' (hcall e.now e.ok s r s1 out h hcl) hr

/-! ### C9: the window is bounded with FIFO eviction -/

/-- The deque append never leaves more than the capacity behind. -/
theorem dequeAppend_length_le (m : ℤ) (w : List Bool) (b : Bool) :
    (dequeAppend m w b).length ≤ m.toNat := by
  simp only [dequeAppend, List.length_drop, List.length_append,
    List.length_cons, List.length_nil]
  omega

/-- Recording a success keeps the window within the capacity. -/
theorem on_success_window_le (now : ℚ) (cfg : Config) (s : CBState)
    (h : s.recent_calls.length ≤ cfg.window_size.toNat) :
    (on_success now cfg s).1.recent_calls.length ≤ cfg.window_size.toNat := by
  simp only [on_success, transition_to_closed, transition_to_open]
  split_ifs <;> simp_all [dequeAppend_length_le]

/-- Recording a failure keeps the window within the capacity. -/
theorem on_failure_window_le (now : ℚ) (cfg : Config) (s : CBState)
    (h : s.recent_calls.length ≤ cfg.window_size.toNat) :
    (on_failure now cfg s).1.recent_calls.length ≤ cfg.window_size.toNat := by
  simp only [on_failure, transition_to_closed, transition_to_open]
  split_ifs <;> simp_all [dequeAppend_length_le]

/-- A completed `call` keeps the window within the capacity. -/
theorem call_window_le (cfg : Config) (now : ℚ) (ok : Bool) (s : CBState)
    (r : CallOutcome) (s' : CBState) (out : List String)
    (h : s.recent_calls.length ≤ cfg.window_size.toNat)
    (hc : call cfg now ok s = some (r, s', out)) :
    s'.recent_calls.length ≤ cfg.window_size.toNat := by
  have hreset : (transition_to_half_open s).1.recent_calls.length ≤
      cfg.window_size.toNat := h
  rcases call_result_state cfg now ok s r s' out hc with h1 | h1 | h1 | h1 <;>
    subst h1
  · exact h
  · cases ok
    · exact on_failure_window_le now cfg s h
    · exact on_success_window_le now cfg s h
  · exact hreset
  · cases ok
    · exact on_failure_window_le now cfg (transition_to_half_open s).1 hreset
    · exact on_success_window_le now cfg (transition_to_half_open s).1 hreset

/-- C9: after every sequence of guarded calls from the freshly constructed
breaker, the Outcome Window holds at most `window_size` entries, and an
append onto a full window (positive capacity) evicts the oldest entry:
the result is the tail of the old window with the new outcome at the
end. -/
theorem window_bounded_and_fifo (cfg : Config) (events : List Event)
    (s1 : CBState) (w : List Bool) (b : Bool)
    (hrun : run cfg initState events = some s1)
    (hw : w.length = cfg.window_size.toNat) (hpos : 0 < cfg.window_size) :
    s1.recent_calls.length ≤ cfg.window_size.toNat ∧
    dequeAppend cfg.window_size w b = w.drop 1 ++ [b] := by
  constructor
  · exact run_preserves cfg
      (fun s => s.recent_calls.length ≤ cfg.window_size.toNat)
      (fun now ok s r s' out h hc => call_window_le cfg now ok s r s' out h hc)
      events initState s1 (by simp [initState]) hrun
  · have h1 : 1 ≤ w.length := by omega
    have h2 : (w ++ [b]).length - cfg.window_size.toNat = 1 := by
      simp only [List.length_append, List.length_cons, List.length_nil]
      omega
    simp only [dequeAppend]
    rw [h2]
    exact List.drop_append_of_le_length h1

/-- Witness for C9: the empty run from the fresh breaker under `cfgA`
(capacity 4), together with eviction on the full window `[T, T, T, T]`. -/
theorem window_bounded_and_fifo_witness :
    initState.recent_calls.length ≤ cfgA.window_size.toNat ∧
    dequeAppend cfgA.window_size [true, true, true, true] false =
      [true, true, true, true].drop 1 ++ [false] :=
  window_bounded_and_fifo cfgA [] initState [true, true, true, true] false
    rfl (by decide) (by decide)

/-! ### C10: in HALF_OPEN the counters always agree -/

/-- In reachable HALF_OPEN states the two half-open counters coincide. -/
def HalfOpenCountersAgree (s : CBState) : Prop :=
  s.state = State.HALF_OPEN → s.half_open_success = s.half_open_calls

/-- Recording a success preserves the counter agreement. -/
theorem on_success_agree (now : ℚ) (cfg : Config) (s : CBState)
    (h : HalfOpenCountersAgree s) :
    HalfOpenCountersAgree (on_success now cfg s).1 := by
  unfold HalfOpenCountersAgree at h ⊢
  simp only [on_success, transition_to_closed, transition_to_open]
  split_ifs <;> intro hst <;> simp_all

/-- Recording a failure preserves the counter agreement. -/
theorem on_failure_agree (now : ℚ) (cfg : Config) (s : CBState)
    (h : HalfOpenCountersAgree s) :
    HalfOpenCountersAgree (on_failure now cfg s).1 := by
  unfold HalfOpenCountersAgree at h ⊢
  simp only [on_failure, transition_to_closed, transition_to_open]
  split_ifs <;> intro hst <;> simp_all

/-- A completed `call` preserves the counter agreement. -/
theorem call_agree (cfg : Config) (now : ℚ) (ok : Bool) (s : CBState)
    (r : CallOutcome) (s' : CBState) (out : List String)
    (h : HalfOpenCountersAgree s)
    (hc : call cfg now ok s = some (r, s', out)) :
    HalfOpenCountersAgree s' := by
  have hreset : HalfOpenCountersAgree (transition_to_half_open s).1 :=
    fun _ => rfl
  rcases call_result_state cfg now ok s r s' out hc with h1 | h1 | h1 | h1 <;>
    subst h1
  · exact h
  · cases ok
    · exact on_failure_agree now cfg s h
    · exact on_success_agree now cfg s h
  · exact hreset
  · cases ok
    · exact on_failure_agree now cfg (transition_to_half_open s).1 hreset
    · exact on_success_agree now cfg (transition_to_half_open s).1 hreset

/-- A trial success closes the breaker exactly when both the budget and
the all-succeeded conditions hold on the incremented counters. -/
theorem on_success_half_open_closed_iff (cfg : Config) (now : ℚ)
    (s : CBState) (hmode : s.state = State.HALF_OPEN) :
    (on_success now cfg s).1.state = State.CLOSED ↔
      (cfg.half_open_max_calls ≤ s.half_open_calls + 1 ∧
       s.half_open_success = s.half_open_calls) := by
  by_cases hc : cfg.half_open_max_calls ≤ s.half_open_calls + 1 ∧
      s.half_open_success = s.half_open_calls
  · simp [on_success, transition_to_closed, hmode, hc]
  · simp [on_success, hmode, hc]

/-- C10: in every state reachable from the fresh breaker whose mode is
HALF_OPEN, `half_open_success = half_open_calls` (a trial failure leaves
HALF_OPEN immediately and entry to HALF_OPEN zeroes both counters), so
the all-attempts-succeeded conjunct of the HALF_OPEN→CLOSED condition is
automatic and a trial success closes the breaker exactly when the
incremented attempt count reaches `half_open_max_calls`. -/
theorem half_open_close_decided_by_attempts (cfg : Config)
    (events : List Event) (s1 : CBState) (now : ℚ)
    (hrun : run cfg initState events = some s1)
    (hmode : s1.state = State.HALF_OPEN) :
    s1.half_open_success = s1.half_open_calls ∧
    ((on_success now cfg s1).1.state = State.CLOSED ↔
      s1.half_open_calls + 1 ≥ cfg.half_open_max_calls) := by
  have hagree : HalfOpenCountersAgree s1 :=
    run_preserves cfg HalfOpenCountersAgree
      (fun now ok s r s' out h hc => call_agree cfg now ok s r s' out h hc)
      events initState s1 (fun h => absurd h (by decide)) hrun
  have heq := hagree hmode
  refine ⟨heq, ?_⟩
  rw [on_success_half_open_closed_iff cfg now s1 hmode]
  constructor
  · exact fun h => h.1
  · exact fun h => ⟨h, heq⟩

/-- The OPEN state reached from the fresh breaker under `cfgA` by one
failed call at instant 0 (window `[F]`, rate 100 %). -/
def sOpenRun : CBState :=
  { state := State.OPEN
    last_failure_time := some 0
    recent_calls := [false]
    half_open_calls := 0
    half_open_success := 0 }

/-- A HALF_OPEN state reached from the fresh breaker under `cfgA`: one
failure at instant 0 trips the breaker, and a successful trial at
instant 5 moves it through HALF_OPEN to counters 1/1. -/
def sHalfRun : CBState :=
  { state := State.HALF_OPEN
    last_failure_time := some 0
    recent_calls := [false]
    half_open_calls := 1
    half_open_success := 1 }

/-- Step equation: a call admitted while CLOSED goes straight to the
record phase. -/
theorem call_closed_eq (cfg : Config) (now : ℚ) (ok : Bool) (s : CBState)
    (hmode : s.state = State.CLOSED) :
    call cfg now ok s = some (callBody cfg now ok s []) := by
  simp [call, hmode]

/-- Step equation: a failing call recorded while CLOSED. -/
theorem callBody_closed_fail_eq (cfg : Config) (now : ℚ) (s : CBState)
    (out : List String) (hmode : s.state = State.CLOSED) :
    callBody cfg now false s out =
      (CallOutcome.raised, (on_failure now cfg s).1,
        out ++ (on_failure now cfg s).2) := by
  simp [callBody, hmode]

/-- Step equation: a failure recorded while CLOSED whose updated window
rate exceeds the threshold trips the breaker. -/
theorem on_failure_closed_trip_eq (cfg : Config) (now : ℚ) (s : CBState)
    (hmode : s.state = State.CLOSED)
    (hr : current_failure_rate
        (dequeAppend cfg.window_size s.recent_calls false) >
      cfg.failure_rate_threshold) :
    on_failure now cfg s =
      ({ s with state := State.OPEN
                last_failure_time := some now
                recent_calls :=
                  dequeAppend cfg.window_size s.recent_calls false },
       ["[TRANSITION] → OPEN"]) := by
  simp [on_failure, transition_to_open, hmode, hr]

/-- Step equation: a call made while OPEN after the wait has elapsed is
re-dispatched from the half-open reset state. -/
theorem call_open_elapsed_eq (cfg : Config) (now t : ℚ) (ok : Bool)
    (s : CBState) (hmode : s.state = State.OPEN)
    (ht : s.last_failure_time = some t)
    (he : now - t ≥ cfg.open_state_wait) :
    call cfg now ok s =
      some (callBody cfg now ok (transition_to_half_open s).1
        (transition_to_half_open s).2) := by
  simp [call, hmode, ht, he]

/-- The two-event run `fail@0, succeed@5` from the fresh breaker under
`cfgA` ends in the HALF_OPEN state `sHalfRun`. -/
theorem run_two_events :
    run cfgA initState [⟨0, false⟩, ⟨5, true⟩] = some sHalfRun := by
  have hrate : current_failure_rate
      (dequeAppend cfgA.window_size initState.recent_calls false) >
      cfgA.failure_rate_threshold := by
    rw [show dequeAppend cfgA.window_size initState.recent_calls false =
      [false] from rfl]
    simp only [current_failure_rate, reduceCtorEq, if_false]
    norm_num [cfgA]
  have hstep1 : call cfgA 0 false initState =
      some (CallOutcome.raised, sOpenRun, ["[TRANSITION] → OPEN"]) := by
    rw [call_closed_eq cfgA 0 false initState rfl,
      callBody_closed_fail_eq cfgA 0 initState [] rfl,
      on_failure_closed_trip_eq cfgA 0 initState rfl hrate]
    rfl
  have hstep2 : call cfgA 5 true sOpenRun =
      some (CallOutcome.returned, sHalfRun, ["[TRANSITION] → HALF_OPEN"]) := by
    rw [call_open_elapsed_eq cfgA 5 0 true sOpenRun rfl rfl
      (by norm_num [cfgA])]
    rfl
  simp only [run, hstep1, hstep2]

/-- Witness for C10 on the two-event run reaching `sHalfRun`. -/
theorem half_open_close_decided_by_attempts_witness :
    sHalfRun.half_open_success = sHalfRun.half_open_calls ∧
    ((on_success 9 cfgA sHalfRun).1.state = State.CLOSED ↔
      sHalfRun.half_open_calls + 1 ≥ cfgA.half_open_max_calls) :=
  half_open_close_decided_by_attempts cfgA [⟨0, false⟩, ⟨5, true⟩] sHalfRun 9
    run_two_events rfl

end CircuitBreaker
